import Mathlib

/-!
Shallow embedding of the report-generation logic of `BBS-report.py`
(Bioconductor Build System report generator), together with theorems
checking the natural-language specification against it.

Conventions of the embedding:
* Python strings are Lean `String`s; Python lists and sets of strings are
  Lean `List String` (the code only does membership tests and ordered
  traversal on them, which a list models faithfully).
* Raising an exception (here `IndexError` from indexing `[-1]` into an
  empty list, and `sys.exit`) is modelled by `Except String`.
* File-system state is passed explicitly: an existence predicate
  `String → Bool` and a contents map `String → String`; the copies a
  function performs are returned as an explicit list of
  (source, destination) pairs.
* The per-stage timeout environment values (`BBSvars.*_timeout`,
  displayed as `int(x / 60.0)` minutes) enter the embedding as the
  already-converted minute values, collected in a `Timeouts` record.
-/

namespace BBS

/-! ### Definitions translated from `BBS-report.py` -/

/-- Embedding of `get_pkg_overall_status` (BBS-report.py lines 35-48):
the chain of `if`/`elif` membership tests over the raw-status collection,
with the skipped-package test folded into the first branch. -/
def get_pkg_overall_status (pkg : String) (statuses : List String)
    (skipped_pkgs : List String) : String :=
  if pkg ∈ skipped_pkgs ∨ "ERROR" ∈ statuses then "ERROR"
  else if "TIMEOUT" ∈ statuses then "TIMEOUT"
  else if "WARNINGS" ∈ statuses then "WARNINGS"
  else if "NA" ∈ statuses then "NA"
  else if "OK" ∈ statuses then "OK"
  else "unknown"

/-- The five canonical raw-status strings the resolver recognises. -/
def canonical_statuses : List String :=
  ["ERROR", "TIMEOUT", "WARNINGS", "NA", "OK"]

/-- The Python idiom
`labels[0] if len(labels) == 1 else ", ".join(labels[:-1]) + " or " + labels[-1]`
used by every message composer, with the `IndexError` that
`labels[-1]` raises on an empty list made explicit. -/
def join_or_labels : List String → Except String String
  | [] => Except.error "IndexError: list index out of range"
  | [l] => Except.ok l
  | l :: ls =>
      Except.ok (String.intercalate ", " ((l :: ls).dropLast) ++ " or " ++
        (l :: ls).getLastD "")

/-- The per-stage timeout thresholds (`BBSvars.INSTALL_timeout` etc.),
already converted to minutes as `int(x / 60.0)` does. -/
structure Timeouts where
  install : Nat
  build : Nat
  check : Nat
  buildbin : Nat

/-- The (label, timeout) pairs collected by the four `if ... in stages`
blocks at the top of `BBSReportContent._get_TIMEOUT_message`
(BBS-report.py lines 126-140): `labels` and `times` are its two parallel
projections. -/
def timeout_pairs (t : Timeouts) (stages : List String) :
    List (String × Nat) :=
  (if "INSTALL" ∈ stages then [("INSTALL", t.install)] else []) ++
  (if "BUILD" ∈ stages then [("BUILD", t.build)] else []) ++
  (if "CHECK" ∈ stages then [("CHECK", t.check)] else []) ++
  (if "BUILD BIN" ∈ stages then [("BUILD BIN", t.buildbin)] else [])

/-- Embedding of `BBSReportContent._get_TIMEOUT_message`
(BBS-report.py lines 122-155).  `same_times` is the Python comparison
`times[:-1] == times[1:]`; the `match` on `times` is `times[0]`. -/
def get_TIMEOUT_message (t : Timeouts) (stages : List String) :
    Except String String :=
  let pairs := timeout_pairs t stages
  let labels := pairs.map Prod.fst
  let times := pairs.map Prod.snd
  match join_or_labels labels with
  | Except.error e => Except.error e
  | Except.ok head =>
    let same_times := times.dropLast == times.drop 1
    let times_part : Except String String :=
      if same_times then
        match times with
        | [] => Except.error "IndexError: list index out of range"
        | t0 :: _ => Except.ok (toString t0)
      else join_or_labels (times.map toString)
    match times_part with
    | Except.error e => Except.error e
    | Except.ok tp =>
        Except.ok (head ++ " of package took more than " ++ tp ++
          " minutes" ++ (if same_times then "" else ", respectively"))

/-- Embedding of `BBSReportContent._get_ERROR_message`
(BBS-report.py lines 157-175): the `len == 1 and labels[0] == "CHECK"`
special case, `labels.remove("CHECK")` (remove first occurrence), the
join idiom, and the two suffixes. -/
def get_ERROR_message (stages : List String) : Except String String :=
  if stages.length == 1 && stages.headD "" == "CHECK" then
    Except.ok ("Bad DESCRIPTION file, or " ++
      "CHECK of package produced errors")
  else
    let check_in_labels := decide ("CHECK" ∈ stages)
    let labels := if check_in_labels then stages.erase "CHECK" else stages
    match join_or_labels labels with
    | Except.error e => Except.error e
    | Except.ok m =>
        Except.ok ("Bad DESCRIPTION file, or " ++
          (m ++ " of package failed" ++
            (if check_in_labels then ", or CHECK produced errors" else "")))

/-- Embedding of `BBSReportContent._get_WARNINGS_message`
(BBS-report.py lines 177-179). -/
def get_WARNINGS_message : String := "CHECK of package produced warnings"

/-- Embedding of `BBSReportContent._get_OK_message`
(BBS-report.py lines 181-189). -/
def get_OK_message (stages : List String) : Except String String :=
  match join_or_labels stages with
  | Except.error e => Except.error e
  | Except.ok m => Except.ok (m ++ " of package went OK")

/-- Embedding of `BBSReportContent._get_NA_message`
(BBS-report.py lines 191-201); the message tail is the concatenation of
the two source-line fragments. -/
def get_NA_message (stages : List String) : Except String String :=
  match join_or_labels stages with
  | Except.error e => Except.error e
  | Except.ok m =>
      Except.ok (m ++ (" result is not available because" ++
        " of an anomaly in the Build System"))

/-- Embedding of `BBSReportContent._get_skipped_message`
(BBS-report.py lines 203-217): only CHECK and BUILD BIN are collected,
then the join idiom is applied. -/
def get_skipped_message (stages : List String) : Except String String :=
  let labels :=
    (if "CHECK" ∈ stages then ["CHECK"] else []) ++
    (if "BUILD BIN" ∈ stages then ["BUILD BIN"] else [])
  match join_or_labels labels with
  | Except.error e => Except.error e
  | Except.ok m =>
      Except.ok (m ++ " of package was skipped because the BUILD step failed")

/-- The `str.removesuffix` method of Python: drop the suffix when the
string ends with it, otherwise return the string unchanged (expressed on
the underlying character lists so that it evaluates by reduction). -/
def removesuffix (s suf : String) : String :=
  if suf.data.isSuffixOf s.data then
    String.mk (s.data.take (s.data.length - suf.data.length))
  else s

/-- The stage-inclusion test of `BBSPackageReference.__init__`
(BBS-report.py lines 95-98), taking the already lower-cased stage name:
install outside the long-tests build type, checksrc outside the
workflows/books types, build bin on binary-building nodes, buildsrc
always. -/
def stage_included (buildtype : String) (is_doing_buildbin : Bool)
    (stage : String) : Bool :=
  (decide (buildtype ≠ "bioc-longtests") && decide (stage = "install")) ||
  (decide (buildtype ∉ ["workflows", "books"]) &&
    decide (stage = "checksrc")) ||
  (is_doing_buildbin && decide (stage = "build bin")) ||
  decide (stage = "buildsrc")

/-- The `str.lower` method of Python, expressed on the underlying
character list so that it evaluates by reduction (stage names are
ASCII). -/
def str_lower (s : String) : String := String.mk (s.data.map Char.toLower)

/-- The keys of the per-node result dictionary `self.results[node_id]`
built by `BBSPackageReference.__init__` (BBS-report.py lines 92-100):
each stage is lower-cased, tested for inclusion, and stored under its
name with a trailing "src" removed. -/
def node_result_keys (buildtype : String) (is_doing_buildbin : Bool)
    (stages : List String) : List String :=
  ((stages.map str_lower).filter
      (stage_included buildtype is_doing_buildbin)).map
    (fun s => removesuffix s "src")

/-- Embedding of `os.path.join` on relative path components. -/
def path_join (parts : List String) : String := String.intercalate "/" parts

/-- Embedding of `_get_incoming_raw_result_path`
(BBS-report.py lines 591-595). -/
def incoming_raw_result_path (central_rdir_path pkg node_id stage
    suffix : String) : String :=
  path_join [central_rdir_path, "products-in", node_id, stage,
    pkg ++ "." ++ stage ++ "-" ++ suffix]

/-- Embedding of `_get_outgoing_raw_result_path`
(BBS-report.py lines 597-599). -/
def outgoing_raw_result_path (pkg node_id stage suffix : String) : String :=
  path_join [pkg, "raw-results", node_id, stage ++ "-" ++ suffix]

/-- Embedding of `get_command_output` (BBS-report.py lines 689-715).
The file system enters as an existence predicate and a contents map;
the result is the returned string paired with the list of
(source, destination) copies performed. -/
def get_command_output (file_exists : String → Bool)
    (file_contents : String → String) (central_rdir_path : String)
    (node_hostname pkg stage : String) (no_raw_results : Bool) :
    String × List (String × String) :=
  let filepath :=
    incoming_raw_result_path central_rdir_path pkg node_hostname stage
      "out.txt"
  if file_exists filepath = false then
    ("Due to an anomaly in the Build System, this output " ++
      "is not available. We apologize for the inconvenience.", [])
  else if no_raw_results then (file_contents filepath, [])
  else (file_contents filepath,
    [(filepath,
      outgoing_raw_result_path pkg node_hostname stage "out.txt")])

/-- The usage message of `parse_options` (BBS-report.py lines 1128-1129). -/
def usage_msg : String :=
  "Usage:\n" ++
    "    BBS-report.py [simple-layout] [no-alphabet-dispatch] [no-raw-results]\n"

/-- The valid command-line options (BBS-report.py line 1130). -/
def valid_options : List String :=
  ["simple-layout", "no-alphabet-dispatch", "no-raw-results"]

/-- Embedding of `parse_options` (BBS-report.py lines 1115-1137):
`set(argv[1:])` is modelled through the membership predicate of
`argv.drop 1` (only membership in the set matters), and
`sys.exit(usage_msg)` — usage to standard error, non-zero exit status —
by `Except.error`. -/
def parse_options (argv : List String) :
    Except String (List (String × Bool)) :=
  let args := argv.drop 1
  if args.all (fun a => decide (a ∈ valid_options)) then
    Except.ok (valid_options.map (fun opt => (opt, decide (opt ∈ args))))
  else Except.error usage_msg

/-- The info dictionary built by `write_info_dcf`
(BBS-report.py lines 637-643) from the package DCF record of the MEAT
index, modelled as a lookup function; a missing field defaults to "NA"
and the at-sign of the maintainer email is spelled out. -/
def info_record (dcf_record : String → Option String) :
    List (String × String) :=
  [("Package", (dcf_record "Package").getD "NA"),
   ("Version", (dcf_record "Version").getD "NA"),
   ("Maintainer", (dcf_record "Maintainer").getD "NA"),
   ("MaintainerEmail",
     ((dcf_record "MaintainerEmail").getD "NA").replace "@" " at ")]

/-- The lines appended to `raw-results/info.dcf` by the `for key, value`
loop of `write_info_dcf` (BBS-report.py lines 646-648): the loop body
writes the plain (non-f-string) literal of the source, once per item of
the record. -/
def write_info_dcf_lines (dcf_record : String → Option String) :
    List String :=
  (info_record dcf_record).map (fun _ => "\x7bkey\x7d: \x7bvalue\x7d\n")

/-- Embedding of `BBSReportContent.get_status_messages`
(BBS-report.py lines 219-238): "timeout" and "error" are computed
unconditionally, "check" only when CHECK is an active stage, and
"skipped" only when CHECK or BUILD BIN is; the dictionary is modelled by
an association list in insertion order. -/
def get_status_messages (t : Timeouts) (stages : List String) :
    Except String (List (String × String)) := do
  let timeout_msg ← get_TIMEOUT_message t stages
  let error_msg ← get_ERROR_message stages
  let check_msgs :=
    if "CHECK" ∈ stages then [("check", get_WARNINGS_message)] else []
  let ok_msg ← get_OK_message stages
  let na_msg ← get_NA_message stages
  let skipped_msgs ←
    if "CHECK" ∈ stages ∨ "BUILD BIN" ∈ stages then
      (get_skipped_message stages).map (fun m => [("skipped", m)])
    else pure []
  pure ([("timeout", timeout_msg), ("error", error_msg)] ++ check_msgs ++
    [("ok", ok_msg), ("na", na_msg)] ++ skipped_msgs)

/-! ### Specification-side definitions (restating the words of the spec, to be
compared with the code-side definitions above) -/

/-- Specification-side restatement of the precedence order of §4.2 of the
spec: first match of ERROR, TIMEOUT, WARNINGS, NA, OK wins, a skipped
package counts as ERROR, and anything else degrades to "unknown". -/
def overall_status_spec (skipped : Bool) (statuses : List String) : String :=
  if skipped ∨ "ERROR" ∈ statuses then "ERROR"
  else if "TIMEOUT" ∈ statuses then "TIMEOUT"
  else if "WARNINGS" ∈ statuses then "WARNINGS"
  else if "NA" ∈ statuses then "NA"
  else if "OK" ∈ statuses then "OK"
  else "unknown"

/-- Specification-side total join: the first N-1 labels joined with
", ", followed by " or " and the last label; a single label unadorned. -/
def join_or : List String → String
  | [] => ""
  | [l] => l
  | l :: ls =>
      String.intercalate ", " ((l :: ls).dropLast) ++ " or " ++
        (l :: ls).getLastD ""

/-- The fixed order in which the TIMEOUT message lists stages. -/
def timeout_stage_order : List String :=
  ["INSTALL", "BUILD", "CHECK", "BUILD BIN"]

/-- The timeout threshold associated to each stage label. -/
def stage_timeout (t : Timeouts) : String → Nat
  | "INSTALL" => t.install
  | "BUILD" => t.build
  | "CHECK" => t.check
  | "BUILD BIN" => t.buildbin
  | _ => 0

/-- "All listed stages share one timeout value". -/
def all_same : List Nat → Bool
  | [] => true
  | x :: xs => xs.all (fun y => y == x)

/-- Specification-side restatement of the TIMEOUT message: exactly the
stage labels of the fixed order that occur in the given list, joined
with commas and a trailing "or"; one value when all listed stages share
a timeout, otherwise all values in the same order with ", respectively"
appended. -/
def TIMEOUT_message_spec (t : Timeouts) (stages : List String) : String :=
  let labels := timeout_stage_order.filter (fun l => decide (l ∈ stages))
  let times := labels.map (stage_timeout t)
  join_or labels ++ " of package took more than " ++
    (if all_same times then toString (times.headD 0)
     else join_or (times.map toString)) ++
    " minutes" ++ (if all_same times then "" else ", respectively")

/-- Specification-side restatement of the ERROR message body: "CHECK of
package produced errors" when CHECK is the only label; otherwise CHECK
is extracted from the joined labels and, when present, appended after
the joined "... of package failed" part. -/
def ERROR_body_spec (stages : List String) : String :=
  if stages = ["CHECK"] then "CHECK of package produced errors"
  else
    join_or (stages.erase "CHECK") ++ " of package failed" ++
      (if "CHECK" ∈ stages then ", or CHECK produced errors" else "")

end BBS

namespace BBS

/-! ### Helper lemmas -/

/-- On a non-empty list the join idiom cannot raise and agrees with the
total specification-side join. -/
theorem join_or_labels_eq_ok (l : List String) (h : l ≠ []) :
    join_or_labels l = Except.ok (join_or l) := by
  cases l with
  | nil => exact absurd rfl h
  | cons x xs =>
    cases xs with
    | nil => rfl
    | cons y ys => rfl

/-- The Python all-equal idiom `times[:-1] == times[1:]` agrees with
`all_same`. -/
theorem dropLast_beq_drop_one (l : List Nat) :
    (l.dropLast == l.drop 1) = all_same l := by
  induction l with
  | nil => rfl
  | cons x xs ih =>
    cases xs with
    | nil => rfl
    | cons y ys =>
      have hstep : ((x :: y :: ys).dropLast == (x :: y :: ys).drop 1) =
          ((x == y) && ((y :: ys).dropLast == (y :: ys).drop 1)) := by
        simp [List.dropLast]
      rw [hstep, ih]
      by_cases hxy : x = y
      · subst hxy
        simp [all_same]
      · have h1 : (x == y) = false := beq_eq_false_iff_ne.mpr hxy
        have h2 : (y == x) = false := beq_eq_false_iff_ne.mpr (Ne.symm hxy)
        simp [all_same, h1, h2]

/-- The pairs collected by the TIMEOUT composer are exactly the canonical
stage order filtered to the occurring labels, paired with their
timeouts. -/
theorem timeout_pairs_eq (t : Timeouts) (stages : List String) :
    timeout_pairs t stages =
      (timeout_stage_order.filter (fun l => decide (l ∈ stages))).map
        (fun l => (l, stage_timeout t l)) := by
  by_cases hI : "INSTALL" ∈ stages <;> by_cases hB : "BUILD" ∈ stages <;>
    by_cases hC : "CHECK" ∈ stages <;> by_cases hBB : "BUILD BIN" ∈ stages <;>
    simp [timeout_pairs, timeout_stage_order, stage_timeout, hI, hB, hC, hBB]

end BBS

namespace BBS

/-! ### Theorems settling the claims -/

/-- C1: `get_pkg_overall_status` is total and deterministic (it is a Lean
function) and returns the first match of the fixed precedence
ERROR > TIMEOUT > WARNINGS > NA > OK > "unknown", with a skipped package
forced to ERROR; in particular {OK, WARNINGS} without skipping resolves
to WARNINGS, and the empty status set of a skipped package to ERROR. -/
theorem overall_status_follows_precedence :
    (∀ (pkg : String) (statuses skipped_pkgs : List String),
      get_pkg_overall_status pkg statuses skipped_pkgs =
        overall_status_spec (decide (pkg ∈ skipped_pkgs)) statuses) ∧
    get_pkg_overall_status "pkg" ["OK", "WARNINGS"] [] = "WARNINGS" ∧
    get_pkg_overall_status "pkg" [] ["pkg"] = "ERROR" := by
  refine ⟨fun pkg statuses skipped_pkgs => ?_, by decide, by decide⟩
  simp only [get_pkg_overall_status, overall_status_spec, decide_eq_true_eq]

/-- C3 counterexample: the precedence matching is NOT case-insensitive.
Replacing "ERROR" by its lower-case variant "error" changes the overall
status from "ERROR" to "unknown". -/
theorem overall_status_not_case_insensitive :
    get_pkg_overall_status "p" ["error"] [] = "unknown" ∧
    get_pkg_overall_status "p" ["ERROR"] [] = "ERROR" ∧
    ("unknown" : String) ≠ "ERROR" := by
  refine ⟨by decide, by decide, by decide⟩

/-- C3 amended: the matching is case-sensitive and exact — only the five
canonical upper-case strings ERROR, TIMEOUT, WARNINGS, NA, OK are ever
matched, so discarding every non-canonical status (in particular any
differently-cased variant) never changes the overall status. -/
theorem overall_status_matches_exact_strings_only
    (pkg : String) (statuses skipped_pkgs : List String) :
    get_pkg_overall_status pkg
        (statuses.filter (fun s => decide (s ∈ canonical_statuses)))
        skipped_pkgs =
      get_pkg_overall_status pkg statuses skipped_pkgs := by
  have key : ∀ s : String, s ∈ canonical_statuses →
      ((s ∈ statuses.filter (fun x => decide (x ∈ canonical_statuses))) ↔
        s ∈ statuses) := by
    intro s hs
    simp [List.mem_filter, hs]
  simp only [get_pkg_overall_status,
    key "ERROR" (by decide), key "TIMEOUT" (by decide),
    key "WARNINGS" (by decide), key "NA" (by decide), key "OK" (by decide)]

/-- C3 amended, closed instantiation: dropping the unrecognised
lower-case "error" does not change the overall status. -/
theorem overall_status_matches_exact_strings_only_witness :
    get_pkg_overall_status "p" (["error", "ok"].filter
        (fun s => decide (s ∈ canonical_statuses))) [] =
      get_pkg_overall_status "p" ["error", "ok"] [] :=
  overall_status_matches_exact_strings_only "p" ["error", "ok"] []

/-- The inclusion test evaluated at the install stage. -/
theorem stage_included_eq_install (bt : String) (bb : Bool) :
    stage_included bt bb "install" = decide (bt ≠ "bioc-longtests") := by
  simp [stage_included]

/-- The inclusion test evaluated at the checksrc stage. -/
theorem stage_included_eq_checksrc (bt : String) (bb : Bool) :
    stage_included bt bb "checksrc" =
      decide (bt ∉ ["workflows", "books"]) := by
  simp [stage_included]

/-- The inclusion test evaluated at the build bin stage. -/
theorem stage_included_eq_buildbin (bt : String) (bb : Bool) :
    stage_included bt bb "build bin" = bb := by
  simp [stage_included]

/-- The inclusion test evaluated at the buildsrc stage. -/
theorem stage_included_eq_buildsrc (bt : String) (bb : Bool) :
    stage_included bt bb "buildsrc" = true := by
  simp [stage_included]

/-- Only the four known stage names can pass the inclusion test. -/
theorem stage_included_domain (bt : String) (bb : Bool) (s : String)
    (h : stage_included bt bb s = true) :
    s = "install" ∨ s = "checksrc" ∨ s = "build bin" ∨ s = "buildsrc" := by
  by_contra hc
  push_neg at hc
  obtain ⟨h1, h2, h3, h4⟩ := hc
  simp [stage_included, h1, h2, h3, h4] at h

/-- C2 counterexample: for the ordinary "bioc" build-matrix type — which
is not the long-tests type — the per-node result set DOES include the
install stage, contradicting "install only when the build-matrix type is
bioc-longtests"; under "bioc-longtests" the install stage is excluded
instead. -/
theorem install_stage_included_outside_longtests :
    "install" ∈ node_result_keys "bioc" false ["install"] ∧
    ("bioc" : String) ≠ "bioc-longtests" ∧
    "install" ∉ node_result_keys "bioc-longtests" false ["install"] := by
  refine ⟨by decide, by decide, by decide⟩

/-- C2 amended: the per-node result set includes the install stage
exactly when the build-matrix type is NOT bioc-longtests (the claim had
the condition inverted), the checksrc stage (stored as "check") exactly
when the type is neither workflows nor books, the build bin stage
exactly on nodes that perform binary builds, and the buildsrc stage
(stored as "build") always — each provided the stage is listed. -/
theorem node_result_keys_characterization (bt : String) (bb : Bool)
    (stages : List String) :
    ("install" ∈ node_result_keys bt bb stages ↔
      bt ≠ "bioc-longtests" ∧ "install" ∈ stages.map str_lower) ∧
    ("check" ∈ node_result_keys bt bb stages ↔
      bt ∉ ["workflows", "books"] ∧ "checksrc" ∈ stages.map str_lower) ∧
    ("build bin" ∈ node_result_keys bt bb stages ↔
      bb = true ∧ "build bin" ∈ stages.map str_lower) ∧
    ("build" ∈ node_result_keys bt bb stages ↔
      "buildsrc" ∈ stages.map str_lower) := by
  refine ⟨?_, ?_, ?_, ?_⟩
  · simp only [node_result_keys, List.mem_map, List.mem_filter]
    constructor
    · rintro ⟨a, ⟨ha, hinc⟩, hk⟩
      rcases stage_included_domain bt bb a hinc with rfl | rfl | rfl | rfl
      · rw [stage_included_eq_install] at hinc
        exact ⟨of_decide_eq_true hinc, ha⟩
      · exact absurd hk (by decide)
      · exact absurd hk (by decide)
      · exact absurd hk (by decide)
    · rintro ⟨hbt, ha⟩
      exact ⟨"install",
        ⟨ha, (stage_included_eq_install bt bb).trans (decide_eq_true hbt)⟩,
        by decide⟩
  · simp only [node_result_keys, List.mem_map, List.mem_filter]
    constructor
    · rintro ⟨a, ⟨ha, hinc⟩, hk⟩
      rcases stage_included_domain bt bb a hinc with rfl | rfl | rfl | rfl
      · exact absurd hk (by decide)
      · rw [stage_included_eq_checksrc] at hinc
        exact ⟨of_decide_eq_true hinc, ha⟩
      · exact absurd hk (by decide)
      · exact absurd hk (by decide)
    · rintro ⟨hbt, ha⟩
      exact ⟨"checksrc",
        ⟨ha, (stage_included_eq_checksrc bt bb).trans (decide_eq_true hbt)⟩,
        by decide⟩
  · simp only [node_result_keys, List.mem_map, List.mem_filter]
    constructor
    · rintro ⟨a, ⟨ha, hinc⟩, hk⟩
      rcases stage_included_domain bt bb a hinc with rfl | rfl | rfl | rfl
      · exact absurd hk (by decide)
      · exact absurd hk (by decide)
      · rw [stage_included_eq_buildbin] at hinc
        exact ⟨hinc, ha⟩
      · exact absurd hk (by decide)
    · rintro ⟨hbb, ha⟩
      exact ⟨"build bin",
        ⟨ha, (stage_included_eq_buildbin bt bb).trans hbb⟩, by decide⟩
  · simp only [node_result_keys, List.mem_map, List.mem_filter]
    constructor
    · rintro ⟨a, ⟨ha, hinc⟩, hk⟩
      rcases stage_included_domain bt bb a hinc with rfl | rfl | rfl | rfl
      · exact absurd hk (by decide)
      · exact absurd hk (by decide)
      · exact absurd hk (by decide)
      · exact ha
    · intro ha
      exact ⟨"buildsrc", ⟨ha, stage_included_eq_buildsrc bt bb⟩, by decide⟩

/-- C4: the TIMEOUT message lists exactly the stage labels among
INSTALL, BUILD, CHECK, BUILD BIN that occur in the given stage-label
list, in that fixed order, joined with commas and a trailing "or"; one
timeout value is stated when all listed stages share it, otherwise all
values appear in the same order and the message ends with
", respectively". -/
theorem TIMEOUT_message_correct (t : Timeouts) (stages : List String)
    (h : "INSTALL" ∈ stages ∨ "BUILD" ∈ stages ∨ "CHECK" ∈ stages ∨
      "BUILD BIN" ∈ stages) :
    get_TIMEOUT_message t stages =
      Except.ok (TIMEOUT_message_spec t stages) := by
  have hlabels : (timeout_pairs t stages).map Prod.fst =
      timeout_stage_order.filter (fun l => decide (l ∈ stages)) := by
    rw [timeout_pairs_eq, List.map_map]
    exact List.map_id _
  have htimes : (timeout_pairs t stages).map Prod.snd =
      (timeout_stage_order.filter (fun l => decide (l ∈ stages))).map
        (stage_timeout t) := by
    rw [timeout_pairs_eq, List.map_map]
    rfl
  have hne : timeout_pairs t stages ≠ [] := by
    rcases h with h | h | h | h <;>
      simp [timeout_pairs, h, List.append_eq_nil]
  obtain ⟨q, qs, hq⟩ : ∃ q qs, timeout_pairs t stages = q :: qs := by
    cases hcase : timeout_pairs t stages with
    | nil => exact absurd hcase hne
    | cons q qs => exact ⟨q, qs, rfl⟩
  have hF : timeout_stage_order.filter (fun l => decide (l ∈ stages)) =
      q.fst :: qs.map Prod.fst := by
    rw [← hlabels, hq, List.map_cons]
  simp only [get_TIMEOUT_message, TIMEOUT_message_spec]
  rw [hlabels, htimes, hF]
  rw [join_or_labels_eq_ok _ (List.cons_ne_nil _ _)]
  simp only [List.map_cons, List.map_map, dropLast_beq_drop_one]
  by_cases hsame :
      all_same (stage_timeout t q.fst ::
        qs.map (stage_timeout t ∘ Prod.fst)) = true
  · simp [hsame]
  · simp [hsame, join_or_labels_eq_ok]

/-- C5: on every non-empty stage-label list the ERROR message is the
fixed prefix "Bad DESCRIPTION file, or " followed by the body described
by the spec: "CHECK of package produced errors" when CHECK is the only
label, otherwise the remaining labels joined before " of package
failed", with ", or CHECK produced errors" appended when CHECK was
among the labels. -/
theorem ERROR_message_correct (stages : List String) (h : stages ≠ []) :
    get_ERROR_message stages =
      Except.ok ("Bad DESCRIPTION file, or " ++ ERROR_body_spec stages) := by
  cases stages with
  | nil => exact absurd rfl h
  | cons x xs =>
    cases xs with
    | nil =>
      by_cases hx : x = "CHECK"
      · subst hx
        rfl
      · have hx2 : "CHECK" ≠ x := Ne.symm hx
        have hb : (x == "CHECK") = false := beq_eq_false_iff_ne.mpr hx
        simp [get_ERROR_message, ERROR_body_spec, hx, hx2, hb,
          join_or_labels, join_or, List.erase_cons]
    | cons y ys =>
      have hlen : ((x :: y :: ys).length == 1) = false := rfl
      have hne2 : x :: y :: ys ≠ ["CHECK"] := by simp
      by_cases hc : "CHECK" ∈ x :: y :: ys
      · have herase : (x :: y :: ys).erase "CHECK" ≠ [] := by
          intro hnil
          have hl := List.length_erase_of_mem hc
          rw [hnil] at hl
          simp at hl
        simp [get_ERROR_message, ERROR_body_spec, hlen, hne2, hc,
          join_or_labels_eq_ok _ herase]
      · simp [get_ERROR_message, ERROR_body_spec, hlen, hne2, hc,
          join_or_labels_eq_ok _ (List.cons_ne_nil x (y :: ys)),
          List.erase_of_not_mem hc]

/-- C5 witness: applying the theorem at the three-label list with CHECK
present, the body extracts CHECK and appends it after the joined
remainder. -/
theorem ERROR_message_correct_witness :
    get_ERROR_message ["INSTALL", "BUILD", "CHECK"] =
      Except.ok ("Bad DESCRIPTION file, or " ++
        "INSTALL or BUILD of package failed, or CHECK produced errors") := by
  have hmain := ERROR_message_correct ["INSTALL", "BUILD", "CHECK"]
    (by simp)
  rw [hmain]
  rfl

/-- C6: the OK and NA composers join the stage labels by the single
grammar rule embodied in `join_or` — the first N-1 labels joined with
", ", then " or " and the last label, a single label unadorned — and
append their fixed sentence tails. -/
theorem OK_NA_messages_use_join_rule (stages : List String)
    (h : stages ≠ []) :
    get_OK_message stages =
      Except.ok (join_or stages ++ " of package went OK") ∧
    get_NA_message stages =
      Except.ok (join_or stages ++
        " result is not available because of an anomaly in the Build System") := by
  constructor
  · simp [get_OK_message, join_or_labels_eq_ok stages h]
  · simp [get_NA_message, join_or_labels_eq_ok stages h]

/-- C6 witness: the theorem applied at the three-label example, together
with the join-rule examples for one and two labels evaluated on
`join_or`. -/
theorem OK_NA_messages_use_join_rule_witness :
    get_OK_message ["INSTALL", "BUILD", "CHECK"] =
      Except.ok "INSTALL, BUILD or CHECK of package went OK" ∧
    join_or ["BUILD"] = "BUILD" ∧
    join_or ["BUILD", "CHECK"] = "BUILD or CHECK" ∧
    join_or ["INSTALL", "BUILD", "CHECK"] = "INSTALL, BUILD or CHECK" := by
  refine ⟨?_, rfl, rfl, rfl⟩
  exact ((OK_NA_messages_use_join_rule ["INSTALL", "BUILD", "CHECK"]
    (by simp)).1).trans (by rfl)

/-- C4 witness: the two worked examples of the spec, obtained by
applying the theorem at concrete timeouts of 40 and 40 resp. 40 and 80
minutes for BUILD and CHECK. -/
theorem TIMEOUT_message_correct_witness :
    get_TIMEOUT_message ⟨0, 40, 40, 0⟩ ["BUILD", "CHECK"] =
      Except.ok "BUILD or CHECK of package took more than 40 minutes" ∧
    get_TIMEOUT_message ⟨0, 40, 80, 0⟩ ["BUILD", "CHECK"] =
      Except.ok ("BUILD or CHECK of package took more than " ++
        "40 or 80 minutes, respectively") := by
  constructor
  · exact (TIMEOUT_message_correct ⟨0, 40, 40, 0⟩ ["BUILD", "CHECK"]
      (by decide)).trans (by rfl)
  · exact (TIMEOUT_message_correct ⟨0, 40, 80, 0⟩ ["BUILD", "CHECK"]
      (by decide)).trans (by rfl)

/-- C7: when the incoming raw output file (the out.txt of the stage)
does not exist, `get_command_output` returns the fixed apology string,
performs no copy, and — being a total function — report generation goes
on with that string. -/
theorem missing_output_gives_apology (file_exists : String → Bool)
    (file_contents : String → String) (central node pkg stage : String)
    (no_raw : Bool)
    (h : file_exists
      (incoming_raw_result_path central pkg node stage "out.txt") = false) :
    get_command_output file_exists file_contents central node pkg stage
        no_raw =
      ("Due to an anomaly in the Build System, this output is not " ++
        "available. We apologize for the inconvenience.", []) := by
  simp [get_command_output, h]

/-- C7 witness: the theorem applied to an empty file system. -/
theorem missing_output_gives_apology_witness :
    get_command_output (fun _ => false) (fun _ => "") "central" "node1"
        "pkgA" "buildsrc" false =
      ("Due to an anomaly in the Build System, this output is not " ++
        "available. We apologize for the inconvenience.", []) :=
  missing_output_gives_apology (fun _ => false) (fun _ => "") "central"
    "node1" "pkgA" "buildsrc" false rfl

/-- Helper: when every argument after the program name is a valid
option, `parse_options` returns the option dictionary keyed by the three
valid options, each mapped to its membership among the arguments. -/
theorem parse_options_ok (argv : List String)
    (h : ∀ a ∈ argv.drop 1, a ∈ valid_options) :
    parse_options argv = Except.ok
      [("simple-layout", decide ("simple-layout" ∈ argv.drop 1)),
       ("no-alphabet-dispatch",
         decide ("no-alphabet-dispatch" ∈ argv.drop 1)),
       ("no-raw-results", decide ("no-raw-results" ∈ argv.drop 1))] := by
  have hc : (argv.drop 1).all (fun a => decide (a ∈ valid_options)) =
      true := by
    simp only [List.all_eq_true, decide_eq_true_eq]
    exact h
  simp [parse_options, hc, valid_options]
  intro x hx h1 h2
  have hv := h x (by simpa [List.drop_one] using hx)
  simp [valid_options, h1, h2] at hv
  exact hv

/-- Helper: when some argument after the program name is not a valid
option, `parse_options` exits with the usage message. -/
theorem parse_options_err (argv : List String)
    (h : ¬ ∀ a ∈ argv.drop 1, a ∈ valid_options) :
    parse_options argv = Except.error usage_msg := by
  have hc : (argv.drop 1).all (fun a => decide (a ∈ valid_options)) =
      false := by
    rw [Bool.eq_false_iff]
    intro hc
    exact h (by simpa [List.all_eq_true] using hc)
  simp [parse_options, hc]
  push_neg at h
  obtain ⟨x, hx, hnx⟩ := h
  exact ⟨x, by simpa [List.drop_one] using hx, hnx⟩

/-- C8: `parse_options` exits with the usage message exactly when the
arguments after the program name are not all among the three valid
options; otherwise it returns the dictionary mapping each valid option
to whether it occurs, and the result only depends on which options occur
(duplicates and order are immaterial). -/
theorem parse_options_correct (argv : List String) :
    (¬ (∀ a ∈ argv.drop 1, a ∈ valid_options) →
      parse_options argv = Except.error usage_msg) ∧
    ((∀ a ∈ argv.drop 1, a ∈ valid_options) →
      parse_options argv = Except.ok
        [("simple-layout", decide ("simple-layout" ∈ argv.drop 1)),
         ("no-alphabet-dispatch",
           decide ("no-alphabet-dispatch" ∈ argv.drop 1)),
         ("no-raw-results", decide ("no-raw-results" ∈ argv.drop 1))]) ∧
    (∀ argv2 : List String,
      (∀ a, a ∈ argv.drop 1 ↔ a ∈ argv2.drop 1) →
      parse_options argv = parse_options argv2) := by
  refine ⟨parse_options_err argv, parse_options_ok argv, ?_⟩
  intro argv2 hiff
  by_cases h1 : ∀ a ∈ argv.drop 1, a ∈ valid_options
  · have h2 : ∀ a ∈ argv2.drop 1, a ∈ valid_options :=
      fun a ha => h1 a ((hiff a).mpr ha)
    rw [parse_options_ok argv h1, parse_options_ok argv2 h2,
      decide_eq_decide.mpr (hiff "simple-layout"),
      decide_eq_decide.mpr (hiff "no-alphabet-dispatch"),
      decide_eq_decide.mpr (hiff "no-raw-results")]
  · have h2 : ¬ ∀ a ∈ argv2.drop 1, a ∈ valid_options :=
      fun hh => h1 (fun a ha => hh a ((hiff a).mp ha))
    rw [parse_options_err argv h1, parse_options_err argv2 h2]

/-- C8 witness: an unknown flag exits with the usage message; a
duplicated valid flag parses, mapping exactly the occurring option to
true. -/
theorem parse_options_correct_witness :
    parse_options ["BBS-report.py", "bogus-flag"] =
      Except.error usage_msg ∧
    parse_options ["BBS-report.py", "no-raw-results", "no-raw-results"] =
      Except.ok [("simple-layout", false), ("no-alphabet-dispatch", false),
        ("no-raw-results", true)] := by
  constructor
  · exact (parse_options_correct ["BBS-report.py", "bogus-flag"]).1
      (by decide)
  · exact ((parse_options_correct
      ["BBS-report.py", "no-raw-results", "no-raw-results"]).2.1
      (by decide)).trans (by rfl)

/-- C9: the record that `write_info_dcf` appends to
`raw-results/info.dcf` consists of four identical literal lines — the
loop writes a plain string, not an f-string — so the appended content is
the same for any two packages and never contains the Package, Version,
Maintainer or MaintainerEmail values it was meant to record. -/
theorem write_info_dcf_ignores_metadata
    (r1 r2 : String → Option String) :
    write_info_dcf_lines r1 = write_info_dcf_lines r2 ∧
    write_info_dcf_lines r1 =
      List.replicate 4 "\x7bkey\x7d: \x7bvalue\x7d\n" :=
  ⟨rfl, rfl⟩

/-- C10: the message composers are not total in the stage-label list:
with none of INSTALL, BUILD, CHECK, BUILD BIN present the TIMEOUT
composer raises IndexError, the skipped composer raises whenever neither
CHECK nor BUILD BIN is present, and `get_status_messages` calls the
TIMEOUT composer unconditionally (so it propagates that failure) while
it guards the skipped message behind a CHECK-or-BUILD-BIN test — on the
single label BUILD it succeeds without a "skipped" entry even though the
skipped composer fails there. -/
theorem message_composers_not_total (t : Timeouts)
    (stages stages2 : List String)
    (h : "INSTALL" ∉ stages ∧ "BUILD" ∉ stages ∧ "CHECK" ∉ stages ∧
      "BUILD BIN" ∉ stages)
    (h2 : "CHECK" ∉ stages2 ∧ "BUILD BIN" ∉ stages2) :
    get_TIMEOUT_message t stages =
      Except.error "IndexError: list index out of range" ∧
    get_skipped_message stages2 =
      Except.error "IndexError: list index out of range" ∧
    get_status_messages t stages =
      Except.error "IndexError: list index out of range" ∧
    (∃ msgs, get_status_messages t ["BUILD"] = Except.ok msgs ∧
      msgs.lookup "skipped" = none) ∧
    get_skipped_message ["BUILD"] =
      Except.error "IndexError: list index out of range" := by
  obtain ⟨hI, hB, hC, hBB⟩ := h
  obtain ⟨hC2, hBB2⟩ := h2
  have hT : get_TIMEOUT_message t stages =
      Except.error "IndexError: list index out of range" := by
    simp [get_TIMEOUT_message, timeout_pairs, hI, hB, hC, hBB,
      join_or_labels]
  refine ⟨hT, ?_, ?_, ⟨_, rfl, rfl⟩, rfl⟩
  · simp [get_skipped_message, hC2, hBB2, join_or_labels]
  · unfold get_status_messages
    rw [hT]
    rfl

/-- C10 witness: the theorem applied to a stage list with an unknown
label and to a CHECK-free, BUILD-BIN-free list. -/
theorem message_composers_not_total_witness :
    get_TIMEOUT_message ⟨1, 2, 3, 4⟩ ["FOO"] =
      Except.error "IndexError: list index out of range" ∧
    get_skipped_message ["INSTALL", "BUILD"] =
      Except.error "IndexError: list index out of range" :=
  ⟨(message_composers_not_total ⟨1, 2, 3, 4⟩ ["FOO"] ["INSTALL", "BUILD"]
      (by decide) (by decide)).1,
    (message_composers_not_total ⟨1, 2, 3, 4⟩ ["FOO"] ["INSTALL", "BUILD"]
      (by decide) (by decide)).2.1⟩

end BBS
